import Mathlib

/-!
Verification of the theme-composition engine (`ggplot/themes/theme.py`) and the
facet layout engine (`ggplotx/facets/facet.py`) of this plotting library.

Python values are shallowly embedded:
  * a themeable's style payload and the scalar-parameter map are association
    lists `List (String × Int)` — presence of a key means the field was
    explicitly set;
  * Python `dict.update` becomes `dictUpdate` (existing keys keep their
    position and receive the newer value, new keys are appended in order);
  * Python exceptions become `Except`/`Option` results;
  * object identity and in-place mutation, where a claim is about aliasing,
    are modelled with an explicit `Heap` of objects addressed by `Nat`;
  * typographic sizes are exact rationals (`ℚ`); the numerals 2.4 and 72.27
    of the source are the rationals 12/5 and 7227/100.
-/

namespace GgplotThemes

/-- An association list with string keys: the embedding of a Python `dict`
whose insertion order is observable. -/
abbrev Params := List (String × Int)

/-- Python `a.update(b)` (returning the new dict): keys already in `a` keep
their position and take `b`'s value when `b` has one; keys of `b` not in `a`
are appended in `b`'s order. -/
def dictUpdate (a b : Params) : Params :=
  a.map (fun p => (p.1, (b.lookup p.1).getD p.2))
  ++ b.filter (fun q => (a.lookup q.1).isNone)

/-- A themeable entry: symbolic element name plus the explicitly-set style
fields of its payload (`element_line`/`element_rect`/`element_text` fields
are abstracted to integer-valued settings; unset fields are absent). -/
structure Themeable where
  name : String
  props : List (String × Int)
deriving Repr, DecidableEq

/-- Modelled from the spec: the per-key merge rule of `themeable.py` (not in
src/): combining two entries with the same name merges field-by-field, the
later entry's explicitly-set fields overwriting, its unset fields retaining
the earlier value. -/
def combineT (a b : Themeable) : Themeable :=
  { name := a.name, props := dictUpdate a.props b.props }

/-- First themeable entry registered under `n`. -/
def findTh (l : List Themeable) (n : String) : Option Themeable :=
  l.find? (fun th => th.name == n)

/-- Property lookup (`lookup_property`): the requested field of the entry named `n`, when both
exist. -/
def lookupF (l : List Themeable) (n f : String) : Option Int :=
  (findTh l n).bind (fun th => th.props.lookup f)

/-- Modelled from the spec: `merge_themeables` of `themeable.py` (not in
src/): for every key of `tb` already in `ta`, combine the payloads
(`combineT`); keys of `tb` not in `ta` are appended in their original order;
`ta`'s relative order is preserved. Pure: neither input is mutated. -/
def merge_themeables (ta tb : List Themeable) : List Themeable :=
  ta.map (fun a =>
    match tb.find? (fun b => b.name == a.name) with
    | some b => combineT a b
    | none => a)
  ++ tb.filter (fun b => (ta.find? (fun a => a.name == b.name)).isNone)

/-- The `theme` class: ordered themeable overrides, the completeness flag,
the scalar-parameter dict `_params`, and the base style options `_rcParams`.
(The transient `figure` back-reference plays no part in any claim and is
omitted.) -/
structure Theme where
  themeables : List Themeable
  complete : Bool
  params : Params
  rcParamsBase : Params
deriving Repr, DecidableEq

/-- Modelled from the spec: a themeable entry's contribution to the resolved
style dict (`themeable.rcParams` of the missing `themeable.py`) is the
mapping derived from its explicitly-set fields. -/
def themeable_rcParams (t : Themeable) : Params := t.props

/-- The `theme.rcParams` property: start from (a copy of) `_rcParams`, then
let every themeable entry update it in stored order.  (The deep-copy /
shallow-copy fallback of the source is invisible on pure values.) -/
def theme_rcParams (t : Theme) : Params :=
  t.themeables.foldl (fun acc th => dictUpdate acc (themeable_rcParams th))
    t.rcParamsBase

/-- Method `theme.add_theme`: a complete `other` annihilates `self` (the result is
`other` itself); otherwise a deep copy of `self` with `other`'s themeables
merged in and `_params` updated by `other`'s. -/
def add_theme (self other : Theme) : Theme :=
  if other.complete then
    other
  else
    { self with
      themeables := merge_themeables self.themeables other.themeables
      params := dictUpdate self.params other.params }

/-- The errors observable from `theme.__add__`. -/
inductive PyError
  | attributeError (msg : String)
  | ggplotError (msg : String)
deriving Repr, DecidableEq

/-- Right-hand operands of `theme.__add__`: a theme, or any non-theme value
(carrying its `str()` rendering). -/
inductive AddOperand
  | th (t : Theme)
  | nonTheme (s : String)

/-- Method `theme.__add__`.  For a non-theme operand the source builds the message
with `("Adding theme failed. ", "... is not a theme").format(str(other))`:
`.format` is called on the *tuple* of the two message parts, and tuples have
no `format` method, so Python raises `AttributeError` before the
`raise GgplotError(msg)` line is ever reached. -/
def theme_add (self : Theme) : AddOperand → Except PyError Theme
  | .th other => .ok (add_theme self other)
  | .nonTheme _s =>
      .error (.attributeError "tuple object has no attribute format")

/-- A plot object as `theme.__radd__` sees it: its `theme` attribute
(possibly unset, i.e. `None`) and its remaining attributes, abstracted to a
value that a deep copy preserves. -/
structure Plot where
  theme : Option Theme
  rest : Int
deriving Repr, DecidableEq

/-- Function `theme_get`: the process-wide default theme — the option-registry entry
`ggplot_options["current_theme"]` if set, else a fresh `theme_gray()`.  The
registry entry and the (external) `theme_gray` are passed explicitly. -/
def theme_get (current_theme : Option Theme) (theme_gray : Theme) : Theme :=
  current_theme.getD theme_gray

/-- Left-hand operands reaching `theme.__radd__`: another theme, or the plot
being themed. -/
inductive RaddOperand
  | th (t : Theme)
  | plot (gg : Plot)

/-- Results of `theme.__radd__`. In the source's final branch the *theme
object* `self` is appended to the copy's `themeables` list (a type anomaly:
that list otherwise holds themeable entries), so that appended theme is
recorded in its own constructor field. -/
inductive RaddResult
  | plotR (gg : Plot)
  | themeR (t : Theme)
  | themeAppendedR (t : Theme) (appended : Theme)
deriving Repr, DecidableEq

/-- Method `theme.__radd__` (invoked for `other + self`): a non-theme `other` is
deep-copied and gets `self` attached — directly when `self` is complete,
else combined onto the plot's current theme (defaulting to `theme_get()`).
A theme `other` is absorbed whole when `self` is complete; otherwise the
source deep-copies `other`, appends the theme object `self` to its
themeables and updates the copy's params with `other`'s own params (a no-op,
the copy already having them). -/
def theme_radd (self : Theme) (current_theme : Option Theme)
    (theme_gray : Theme) : RaddOperand → RaddResult
  | .plot gg =>
      if self.complete then
        .plotR { gg with theme := some self }
      else
        let base := gg.theme.getD (theme_get current_theme theme_gray)
        .plotR { gg with theme := some (add_theme base self) }
  | .th other =>
      if self.complete then
        .themeR self
      else
        .themeAppendedR
          { other with params := dictUpdate other.params other.params } self

end GgplotThemes

/-- A store of Python objects addressed by `Nat`, used where a claim is about
object identity: returning an address without allocating models returning the
very same object (an alias), while `alloc` models `deepcopy` producing a
fresh, structurally independent object. -/
structure Heap (α : Type) where
  objs : List α
deriving Repr, DecidableEq

/-- Dereference an address. -/
def Heap.get {α} (h : Heap α) (r : Nat) : Option α := h.objs[r]?

/-- Number of live objects (also the next fresh address). -/
def Heap.size {α} (h : Heap α) : Nat := h.objs.length

/-- In-place mutation of the object at address `r`. -/
def Heap.set {α} (h : Heap α) (r : Nat) (x : α) : Heap α := ⟨h.objs.set r x⟩

/-- Allocate a fresh object, returning the new heap and its address. -/
def Heap.alloc {α} (h : Heap α) (x : α) : Heap α × Nat :=
  (⟨h.objs ++ [x]⟩, h.objs.length)

namespace GgplotThemes

/-- Method `theme.add_theme` at the level of object identity: given the addresses of
`self` and `other`, a complete `other` is returned as-is (`return other` in
the source: the result address *is* `other`'s address, nothing is copied),
while the merge branch deep-copies `self`, so a fresh object holding the
merged theme is allocated. `none` when either address is dangling. -/
def add_theme_heap (h : Heap Theme) (selfRef otherRef : Nat) :
    Option (Heap Theme × Nat) :=
  match h.get selfRef, h.get otherRef with
  | some s, some o =>
      if o.complete then
        some (h, otherRef)
      else
        some (h.alloc
          { s with
            themeables := merge_themeables s.themeables o.themeables
            params := dictUpdate s.params o.params })
  | _, _ => none

end GgplotThemes

namespace GgplotxFacets

/-- The theme-property interface the facet engine consumes
(`self.theme.themeables.property(...)` plus `self.theme.rcParams`, both
implemented outside this file's source).  Numeric properties and margin
objects are kept apart because the facet code reads them differently:
a margin is an object answering `get_as(side, unit)` for the sides
`t`/`b`/`l`/`r`.  A `none` result models the `KeyError`
(`PropertyNotFound`) the real lookup raises for an unregistered name. -/
structure FTheme where
  propNum : String → String → Option ℚ
  propMargin : String → Option (String → ℚ)
  fontSizeRc : Option ℚ

/-- The `facet` base class: constructor-set configuration, the subclass-set
grid shape and facet-variable counts, and the transient draw-pass bindings
(`theme`, `axs`).  The `labeller`, and the `figure`/`coordinates`/`panel`
references, are opaque external objects no claim touches and are omitted.
`nrow`/`ncol` default to `None` in the source and are set by subclasses
before allocation; they are modelled as the numbers allocation uses. -/
structure Facet where
  shrink : Bool
  as_table : Bool
  drop : Bool
  dir : String
  free_x : Bool
  free_y : Bool
  nrow : Nat
  ncol : Nat
  num_vars_x : Nat
  num_vars_y : Nat
  theme : FTheme
  axs : List (Nat × Nat)

/-- The `nrow × ncol` grid of panel surfaces `plt.subplots` returns, each
surface identified by its (row, column) position. -/
def grid (nrow ncol : Nat) : List (List (Nat × Nat)) :=
  (List.range nrow).map (fun i => (List.range ncol).map (fun j => (i, j)))

/-- Outcome of surface allocation: how many surfaces the renderer was asked
for, which ones were bound to panels (in traversal order), and which were
deleted as unused. -/
structure AxsAlloc where
  allocated : Nat
  bound : List (Nat × Nat)
  deleted : List (Nat × Nat)
deriving Repr, DecidableEq

/-- Method `facet.make_figure_and_axs`: allocate an `nrow × ncol` grid, reverse the
row order unless table-oriented, ravel row-major (`'C'`) when `dir == "h"`
and column-major (`'F'`) otherwise, delete the surfaces beyond the panel
count and bind the rest, together with the theme, as transient state.
`num_panels` is `len(panel.layout)` of the external panel-layout input. -/
def make_figure_and_axs (f : Facet) (num_panels : Nat) (theme : FTheme) :
    Facet × AxsAlloc :=
  let axs0 := grid f.nrow f.ncol
  let axs1 := if f.as_table then axs0 else axs0.reverse
  let lin := if f.dir == "h" then axs1.flatten else axs1.transpose.flatten
  let bound := lin.take num_panels
  ({ f with axs := bound, theme := theme },
   { allocated := f.nrow * f.ncol
     bound := bound
     deleted := lin.drop num_panels })

/-- Method `facet.inner_strip_margins`: the two margins flanking the strip text, in
points, read from the `strip_text_y` (right strip: sides l/r) or
`strip_text_x` (top strip: sides t/b) themeable, falling back to 3pt/3pt when
the margin property is missing (the source swallows the lookup error with a
bare `except`). -/
def inner_strip_margins (f : Facet) (location : String) : ℚ × ℚ :=
  let strip_name := if location == "right" then "strip_text_y" else "strip_text_x"
  let sides : String × String := if location == "right" then ("l", "r") else ("t", "b")
  match f.theme.propMargin strip_name with
  | none => (3, 3)
  | some margin => (margin sides.1, margin sides.2)

/-- Method `facet.strip_size`: breadth of the strip background in inches.  A falsy
`num_lines` (the source's `None` default and `0` behave identically under
`num_lines or self.num_vars_...`, so both are modelled as `0`) falls back to
the facet-variable count for the location; a zero effective count yields
breadth 0; otherwise
`(linespacing * fontsize) * n / 72.27 + (m1 + m2) / 72.27`, the font size
defaulting to the theme's `font.size` style option (itself defaulting to 10)
and the line spacing to 1 when those properties are missing. -/
def strip_size (f : Facet) (location : String) (num_lines : Nat) : ℚ :=
  let dpi : ℚ := 7227 / 100
  let strip_name := if location == "right" then "strip_text_y" else "strip_text_x"
  let n : Nat := if location == "right"
    then (if num_lines = 0 then f.num_vars_y else num_lines)
    else (if num_lines = 0 then f.num_vars_x else num_lines)
  if n = 0 then 0
  else
    let fontsize := (f.theme.propNum strip_name "size").getD
      (f.theme.fontSizeRc.getD 10)
    let linespacing := (f.theme.propNum strip_name "linespacing").getD 1
    let m := inner_strip_margins f location
    (linespacing * fontsize) * (n : ℚ) / dpi + (m.1 + m.2) / dpi

/-- The themeable-derived part of `facet.set_breaks_and_labels`: the x and y
tick-label paddings in points, read from the `margin` property of
`axis_text_x` (side t) and `axis_text_y` (side r), each falling back to 2.4
points when the property lookup raises `KeyError`.  (The remaining body only
forwards limits, breaks and labels to the rendering surface.) -/
def set_breaks_and_labels_pads (f : Facet) : ℚ × ℚ :=
  (match f.theme.propMargin "axis_text_x" with
   | none => 12 / 5
   | some margin => margin "t",
   match f.theme.propMargin "axis_text_y" with
   | none => 12 / 5
   | some margin => margin "r")

/-- The plot object as `facet.__radd__` sees it: its `facet` attribute is a
*reference* (a heap address), everything else is deep-copied value state. -/
structure PlotX where
  facet : Option Nat
  rest : Int
deriving Repr, DecidableEq

/-- Method `facet.__radd__`: deep-copy the plot (value copy of everything except
what is reassigned next) and store the facet *reference* itself — the facet
object is not copied, so every plot built from it shares the one instance.
`inplace` only selects whether the original object or its copy is the one
returned; the resulting value is the same. -/
def facet_radd (selfRef : Nat) (gg : PlotX) (inplace : Bool) : PlotX :=
  let _ := inplace
  { gg with facet := some selfRef }

end GgplotxFacets

namespace GgplotThemes

/-- A small partial theme: x-axis text size 8 and a panel-background fill,
plus one scalar parameter. -/
def thA : Theme :=
  { themeables := [⟨"axis_text_x", [("size", 8)]⟩, ⟨"panel_background", [("fill", 1)]⟩]
    complete := false
    params := [("aspect_ratio", 0), ("dpi", 100)]
    rcParamsBase := [("font.size", 12)] }

/-- A partial theme overriding only the x-axis text angle. -/
def thB : Theme :=
  { themeables := [⟨"axis_text_x", [("angle", 45)]⟩]
    complete := false
    params := [("dpi", 300)]
    rcParamsBase := [] }

/-- A partial theme overriding the panel-background fill and a new key. -/
def thC : Theme :=
  { themeables := [⟨"panel_background", [("fill", 2)]⟩, ⟨"legend_position", [("pos", 3)]⟩]
    complete := false
    params := [("aspect_ratio", 1)]
    rcParamsBase := [] }

/-- A complete (builtin-style) theme. -/
def thComplete : Theme :=
  { themeables := [⟨"axis_text_x", [("size", 11)]⟩]
    complete := true
    params := [("dpi", 72)]
    rcParamsBase := [("font.size", 11)] }

/-- The complete theme after an in-place mutation by its owner. -/
def thCompleteMutated : Theme :=
  { thComplete with params := [("dpi", 600)] }

end GgplotThemes

namespace GgplotxFacets

/-- A theme answering no property lookup at all: every access takes the
fallback path. -/
def defFTheme : FTheme :=
  { propNum := fun _ _ => none
    propMargin := fun _ => none
    fontSizeRc := none }

/-- The facet of testable property 6: `nrow=2, ncol=2, as_table=True,
dir="h"`, base-class facet-variable counts. -/
def facetEx : Facet :=
  { shrink := true, as_table := true, drop := true, dir := "h"
    free_x := false, free_y := false
    nrow := 2, ncol := 2
    num_vars_x := 0, num_vars_y := 0
    theme := defFTheme, axs := [] }

/-- A facet with one faceting variable on the horizontal strip (as a
grid-style subclass sets up before drawing). -/
def facetNv : Facet := { facetEx with num_vars_x := 1 }

/-- A theme providing font size 10, line spacing 1 and 3pt/3pt margins for
the horizontal strip text. -/
def c8FTheme : FTheme :=
  { propNum := fun name field =>
      if name == "strip_text_x" && field == "size" then some 10
      else if name == "strip_text_x" && field == "linespacing" then some 1
      else none
    propMargin := fun name =>
      if name == "strip_text_x" then some (fun _ => 3) else none
    fontSizeRc := none }

/-- The facet of testable property 5: bound to `c8FTheme`. -/
def facetC8 : Facet := { facetEx with theme := c8FTheme }

end GgplotxFacets



namespace GgplotThemes

theorem lookup_append (l₁ l₂ : Params) (k : String) :
    (l₁ ++ l₂).lookup k = (l₁.lookup k).or (l₂.lookup k) := by
  induction l₁ with
  | nil => simp
  | cons p l ih =>
    obtain ⟨k', v⟩ := p
    simp only [List.cons_append, List.lookup_cons]
    cases h : k == k' <;> simp [h, ih]

theorem lookup_map_update (a b : Params) (k : String) :
    (a.map (fun p => (p.1, (b.lookup p.1).getD p.2))).lookup k
      = (a.lookup k).map (fun v => (b.lookup k).getD v) := by
  induction a with
  | nil => simp
  | cons p a ih =>
    obtain ⟨k', v⟩ := p
    simp only [List.map_cons, List.lookup_cons]
    cases h : k == k'
    · simpa [h] using ih
    · have hk : k = k' := eq_of_beq h
      subst hk
      simp [h]

theorem lookup_filter_key (b : Params) (P : String → Bool) (k : String) :
    (b.filter (fun q => P q.1)).lookup k = if P k then b.lookup k else none := by
  induction b with
  | nil => simp
  | cons q b ih =>
    obtain ⟨k', v⟩ := q
    simp only [List.filter_cons]
    by_cases hP : P k' = true
    · rw [if_pos hP]
      simp only [List.lookup_cons]
      cases h : k == k'
      · simp [h, ih]
      · have hk : k = k' := eq_of_beq h
        subst hk
        simp [hP]
    · rw [if_neg hP]
      rw [ih]
      simp only [List.lookup_cons]
      cases h : k == k'
      · simp [h]
      · have hk : k = k' := eq_of_beq h
        subst hk
        simp [hP]

theorem lookup_dictUpdate (a b : Params) (k : String) :
    (dictUpdate a b).lookup k = (b.lookup k).or (a.lookup k) := by
  unfold dictUpdate
  rw [lookup_append, lookup_map_update,
    lookup_filter_key b (fun x => (a.lookup x).isNone) k]
  cases ha : a.lookup k <;> cases hb : b.lookup k <;> simp [ha, hb]

end GgplotThemes

namespace GgplotThemes

theorem findTh_append (l₁ l₂ : List Themeable) (n : String) :
    findTh (l₁ ++ l₂) n = (findTh l₁ n).or (findTh l₂ n) := by
  simp [findTh, List.find?_append]

theorem findTh_map_merge (ta tb : List Themeable) (n : String) :
    findTh (ta.map (fun a =>
        match tb.find? (fun b => b.name == a.name) with
        | some b => combineT a b
        | none => a)) n
      = (findTh ta n).map (fun a =>
          match tb.find? (fun b => b.name == a.name) with
          | some b => combineT a b
          | none => a) := by
  unfold findTh
  rw [List.find?_map]
  have hpred : ((fun th : Themeable => th.name == n) ∘ fun a =>
      match tb.find? (fun b => b.name == a.name) with
      | some b => combineT a b
      | none => a) = (fun a : Themeable => a.name == n) := by
    funext a
    cases htb : tb.find? (fun b => b.name == a.name) <;>
      simp [Function.comp, htb, combineT]
  rw [hpred]

theorem findTh_filter_key (tb : List Themeable) (P : String → Bool) (n : String) :
    findTh (tb.filter (fun b => P b.name)) n
      = if P n then findTh tb n else none := by
  induction tb with
  | nil => simp [findTh]
  | cons b tb ih =>
    simp only [List.filter_cons]
    by_cases hP : P b.name = true
    · rw [if_pos hP]
      unfold findTh
      simp only [List.find?_cons]
      cases h : b.name == n
      · exact ih
      · have hn : b.name = n := eq_of_beq h
        rw [← hn, hP]
        simp
    · rw [if_neg hP]
      rw [ih]
      unfold findTh
      simp only [List.find?_cons]
      cases h : b.name == n
      · rfl
      · have hn : b.name = n := eq_of_beq h
        rw [← hn]
        simp [hP, Bool.eq_false_iff.mpr hP]


theorem findTh_merge (ta tb : List Themeable) (n : String) :
    findTh (merge_themeables ta tb) n =
      match findTh ta n with
      | some a => some (match findTh tb n with
                        | some b => combineT a b
                        | none => a)
      | none => findTh tb n := by
  unfold merge_themeables
  rw [findTh_append, findTh_map_merge,
    findTh_filter_key tb (fun m => (ta.find? (fun a => a.name == m)).isNone) n]
  unfold findTh
  cases ha : ta.find? (fun th => th.name == n) with
  | some a =>
      have hb := List.find?_some ha
      have hname : a.name = n := eq_of_beq hb
      subst hname
      simp
  | none =>
      simp

theorem lookupF_merge (ta tb : List Themeable) (n f : String) :
    lookupF (merge_themeables ta tb) n f
      = (lookupF tb n f).or (lookupF ta n f) := by
  unfold lookupF
  rw [findTh_merge]
  cases ha : findTh ta n <;> cases hb : findTh tb n <;>
    simp [combineT, lookup_dictUpdate]

theorem findTh_merge_isNone (ta tb : List Themeable) (n : String) :
    (findTh (merge_themeables ta tb) n).isNone
      = ((findTh ta n).isNone && (findTh tb n).isNone) := by
  rw [findTh_merge]
  cases findTh ta n <;> cases findTh tb n <;> simp

theorem merge_names (ta tb : List Themeable) :
    (merge_themeables ta tb).map Themeable.name
      = ta.map Themeable.name
        ++ (tb.map Themeable.name).filter (fun m => (findTh ta m).isNone) := by
  unfold merge_themeables
  rw [List.map_append]
  congr 1
  · rw [List.map_map]
    apply List.map_congr_left
    intro a _
    cases htb : tb.find? (fun b => b.name == a.name) <;>
      simp [Function.comp, htb, combineT]
  · induction tb with
    | nil => simp
    | cons b tb ih =>
      simp only [List.filter_cons, List.map_cons]
      by_cases h : (ta.find? (fun a => a.name == b.name)).isNone = true
      · have h' : (findTh ta b.name).isNone = true := h
        rw [if_pos h, if_pos h', List.map_cons, ih]
      · have h' : ¬((findTh ta b.name).isNone = true) := h
        rw [if_neg h, if_neg h', ih]

end GgplotThemes

namespace GgplotThemes

theorem add_theme_of_not_complete {a b : Theme} (hb : b.complete = false) :
    add_theme a b =
      { a with
        themeables := merge_themeables a.themeables b.themeables
        params := dictUpdate a.params b.params } := by
  simp [add_theme, hb]

/-- C1: for every theme `t` and complete theme `C`, the combination `t + C`
(both through `add_theme` and through the `__add__` operator) is `C` itself,
hence has `C`'s resolved style dict and apply side effects; and `__radd__`
between two themes with the right-hand `self` complete returns `self`,
discarding the other theme entirely. -/
theorem C1_complete_absorbs (t C : Theme) (cur : Option Theme) (gray : Theme)
    (hC : C.complete = true) :
    add_theme t C = C
    ∧ theme_add t (.th C) = .ok C
    ∧ theme_rcParams (add_theme t C) = theme_rcParams C
    ∧ theme_radd C cur gray (.th t) = .themeR C := by
  refine ⟨?_, ?_, ?_, ?_⟩ <;> simp [add_theme, theme_add, theme_radd, hC]

/-- Witness for C1 at a concrete partial theme and a concrete complete
theme. -/
theorem C1_complete_absorbs_witness :
    thComplete.complete = true
    ∧ (add_theme thA thComplete = thComplete
        ∧ theme_add thA (.th thComplete) = .ok thComplete
        ∧ theme_rcParams (add_theme thA thComplete) = theme_rcParams thComplete
        ∧ theme_radd thComplete none thA (.th thA) = .themeR thComplete) :=
  ⟨rfl, C1_complete_absorbs thA thComplete none thA rfl⟩

/-- C2 (code bug): `theme + other` with a non-theme `other` raises
`AttributeError` from formatting the message tuple, not the intended
`GgplotError`: the `raise GgplotError` statement is unreachable. -/
theorem C2_add_nontheme_error (t : Theme) (s : String) :
    theme_add t (.nonTheme s)
        = .error (.attributeError "tuple object has no attribute format")
    ∧ ∀ m, theme_add t (.nonTheme s) ≠ .error (.ggplotError m) := by
  constructor
  · rfl
  · intro m h
    simp [theme_add] at h

end GgplotThemes

namespace GgplotThemes

/-- C3 (amended): combining never mutates either input object, and when
`other` is a partial theme the result is a freshly allocated object, so
later in-place mutation of either input leaves the stored result untouched;
but when `other` is complete the result is the very object `other` (the
source returns it without copying). -/
theorem C3_combine_fresh_unless_complete (h : Heap Theme) (s o : Nat)
    (tSelf tOther : Theme)
    (hs : h.get s = some tSelf) (ho : h.get o = some tOther) :
    ∃ h' r, add_theme_heap h s o = some (h', r)
      ∧ h'.get s = some tSelf
      ∧ h'.get o = some tOther
      ∧ (tOther.complete = false →
          r = h.size
          ∧ h'.get r = some (add_theme tSelf tOther)
          ∧ ∀ x : Theme,
              (h'.set s x).get r = h'.get r ∧ (h'.set o x).get r = h'.get r)
      ∧ (tOther.complete = true → h' = h ∧ r = o) := by
  have hslt : s < h.objs.length := (List.getElem?_eq_some.mp hs).1
  have holt : o < h.objs.length := (List.getElem?_eq_some.mp ho).1
  unfold add_theme_heap
  rw [hs, ho]
  by_cases hc : tOther.complete
  · refine ⟨h, o, ?_⟩
    simp [hc, hs, ho]
  · have hc' : tOther.complete = false := by simpa using hc
    refine ⟨⟨h.objs ++
        [{ tSelf with
           themeables := merge_themeables tSelf.themeables tOther.themeables
           params := dictUpdate tSelf.params tOther.params }]⟩,
      h.objs.length, ?_⟩
    have hget : ∀ i, i < h.objs.length →
        (Heap.mk (α := Theme) (h.objs ++
          [{ tSelf with
             themeables := merge_themeables tSelf.themeables tOther.themeables
             params := dictUpdate tSelf.params tOther.params }])).get i
          = h.get i := by
      intro i hi
      simp [Heap.get, List.getElem?_append, hi]
    refine ⟨?_, ?_, ?_, ?_, ?_⟩
    · simp [hc', Heap.alloc]
    · rw [hget s hslt]; exact hs
    · rw [hget o holt]; exact ho
    · intro _
      refine ⟨rfl, ?_, ?_⟩
      · simp [Heap.get, Heap.size, add_theme, hc', List.getElem?_concat_length]
      · intro x
        constructor
        · show ((Heap.set _ s x).objs)[h.objs.length]? = _
          exact List.getElem?_set_ne (Nat.ne_of_lt hslt)
        · show ((Heap.set _ o x).objs)[h.objs.length]? = _
          exact List.getElem?_set_ne (Nat.ne_of_lt holt)
    · intro hcontr
      rw [hcontr] at hc'
      cases hc'

end GgplotThemes

namespace GgplotThemes

/-- C3 counterexample: with `other` a complete theme, `add_theme` returns
`other`'s own address without deep-copying, so a later in-place mutation of
the caller's `other` does change what the stored result dereferences to —
against the claim that the result is independent of both inputs. -/
theorem C3_alias_counterexample :
    add_theme_heap (Heap.mk [thA, thComplete]) 0 1
        = some (Heap.mk [thA, thComplete], 1)
    ∧ ((Heap.mk [thA, thComplete]).set 1 thCompleteMutated).get 1
        ≠ (Heap.mk [thA, thComplete]).get 1 := by
  constructor
  · rfl
  · decide

/-- Witness for C3 at a concrete heap holding two partial themes. -/
theorem C3_combine_fresh_witness :
    (Heap.mk [thA, thB]).get 0 = some thA
    ∧ (Heap.mk [thA, thB]).get 1 = some thB
    ∧ ∃ h' r, add_theme_heap (Heap.mk [thA, thB]) 0 1 = some (h', r)
        ∧ h'.get 0 = some thA
        ∧ h'.get 1 = some thB
        ∧ (thB.complete = false →
            r = (Heap.mk [thA, thB]).size
            ∧ h'.get r = some (add_theme thA thB)
            ∧ ∀ x : Theme,
                (h'.set 0 x).get r = h'.get r ∧ (h'.set 1 x).get r = h'.get r)
        ∧ (thB.complete = true → h' = Heap.mk [thA, thB] ∧ r = 1) :=
  ⟨rfl, rfl, C3_combine_fresh_unless_complete (Heap.mk [thA, thB]) 0 1 thA thB rfl rfl⟩

/-- C4: chained combination of partial themes `(a + b) + c` orders the
themeable entries as a's keys, then b's new keys, then c's new keys; field
lookups resolve with the later operand winning field-by-field (c, then b,
then a); and the scalar-parameter map resolves keys the same way. -/
theorem C4_chain_precedence (a b c : Theme) (n f k : String)
    (hb : b.complete = false) (hc : c.complete = false) :
    (add_theme (add_theme a b) c).themeables.map Themeable.name
        = a.themeables.map Themeable.name
          ++ (b.themeables.map Themeable.name).filter
               (fun m => (findTh a.themeables m).isNone)
          ++ (c.themeables.map Themeable.name).filter
               (fun m => (findTh a.themeables m).isNone
                  && (findTh b.themeables m).isNone)
    ∧ lookupF (add_theme (add_theme a b) c).themeables n f
        = (lookupF c.themeables n f).or
            ((lookupF b.themeables n f).or (lookupF a.themeables n f))
    ∧ (add_theme (add_theme a b) c).params.lookup k
        = (c.params.lookup k).or
            ((b.params.lookup k).or (a.params.lookup k)) := by
  rw [add_theme_of_not_complete hb, add_theme_of_not_complete hc]
  refine ⟨?_, ?_, ?_⟩
  · show (merge_themeables (merge_themeables a.themeables b.themeables)
        c.themeables).map Themeable.name = _
    rw [merge_names, merge_names]
    congr 1
    apply List.filter_congr
    intro m _
    rw [findTh_merge_isNone]
  · show lookupF (merge_themeables (merge_themeables a.themeables b.themeables)
        c.themeables) n f = _
    rw [lookupF_merge, lookupF_merge]
  · show (dictUpdate (dictUpdate a.params b.params) c.params).lookup k = _
    rw [lookup_dictUpdate, lookup_dictUpdate]

end GgplotThemes

namespace GgplotThemes

/-- Witness for C4 at three concrete partial themes and a concrete
key/field/parameter query. -/
theorem C4_chain_precedence_witness :
    thB.complete = false
    ∧ thC.complete = false
    ∧ ((add_theme (add_theme thA thB) thC).themeables.map Themeable.name
          = thA.themeables.map Themeable.name
            ++ (thB.themeables.map Themeable.name).filter
                 (fun m => (findTh thA.themeables m).isNone)
            ++ (thC.themeables.map Themeable.name).filter
                 (fun m => (findTh thA.themeables m).isNone
                    && (findTh thB.themeables m).isNone)
        ∧ lookupF (add_theme (add_theme thA thB) thC).themeables "axis_text_x" "size"
            = (lookupF thC.themeables "axis_text_x" "size").or
                ((lookupF thB.themeables "axis_text_x" "size").or
                  (lookupF thA.themeables "axis_text_x" "size"))
        ∧ (add_theme (add_theme thA thB) thC).params.lookup "dpi"
            = (thC.params.lookup "dpi").or
                ((thB.params.lookup "dpi").or (thA.params.lookup "dpi"))) :=
  ⟨rfl, rfl, C4_chain_precedence thA thB thC "axis_text_x" "size" "dpi" rfl rfl⟩

/-- C5: adding a theme to a plot object deep-copies the plot; a complete
theme is attached directly, a partial one is combined (via `add_theme`) onto
the plot's current theme, or onto the process default `theme_get()` when the
plot has none, and the combination is attached. -/
theorem C5_radd_plot (t : Theme) (cur : Option Theme) (gray : Theme)
    (gg : Plot) :
    (t.complete = true →
        theme_radd t cur gray (.plot gg) = .plotR { gg with theme := some t })
    ∧ (t.complete = false →
        theme_radd t cur gray (.plot gg)
          = .plotR { gg with
              theme := some (add_theme (gg.theme.getD (theme_get cur gray)) t) })
    ∧ (t.complete = false → gg.theme = none →
        theme_radd t cur gray (.plot gg)
          = .plotR { gg with
              theme := some (add_theme (theme_get cur gray) t) }) := by
  refine ⟨?_, ?_, ?_⟩
  · intro hc
    simp [theme_radd, hc]
  · intro hc
    simp [theme_radd, hc]
  · intro hc hnone
    simp [theme_radd, hc, hnone]

/-- Witness for C5: a partial theme added to a plot with no theme set picks
up the process default. -/
theorem C5_radd_plot_witness :
    thB.complete = false
    ∧ (Plot.mk none 7).theme = none
    ∧ theme_radd thB none thComplete (.plot (Plot.mk none 7))
        = .plotR { Plot.mk none 7 with
            theme := some (add_theme (theme_get none thComplete) thB) } :=
  ⟨rfl, rfl,
    (C5_radd_plot thB none thComplete (Plot.mk none 7)).2.2 rfl rfl⟩

end GgplotThemes

namespace GgplotxFacets

/-- C6: a 2-by-2, table-oriented, horizontally-filled facet over 3 panels
asks for 4 surfaces, deletes exactly the last one in raveled row-major
order, and binds the remaining 3 in row-major reading order; in general the
traversal reverses the rows when not table-oriented, ravels row-major for
`dir = "h"` and column-major for `dir = "v"`, binds the first `num_panels`
surfaces of the traversal (also recording them as the facet's `axs`), and
the deleted surfaces are exactly the traversal's tail beyond the panel
count. -/
theorem C6_allocation_order (f : Facet) (np : Nat) (th : FTheme) :
    (make_figure_and_axs facetEx 3 defFTheme).2
        = { allocated := 4
            bound := [(0, 0), (0, 1), (1, 0)]
            deleted := [(1, 1)] }
    ∧ (make_figure_and_axs f np th).2.allocated = f.nrow * f.ncol
    ∧ (make_figure_and_axs f np th).2.bound
          ++ (make_figure_and_axs f np th).2.deleted
        = (if f.dir == "h"
            then (if f.as_table then grid f.nrow f.ncol
                  else (grid f.nrow f.ncol).reverse).flatten
            else (if f.as_table then grid f.nrow f.ncol
                  else (grid f.nrow f.ncol).reverse).transpose.flatten)
    ∧ (make_figure_and_axs f np th).2.bound
        = (if f.dir == "h"
            then (if f.as_table then grid f.nrow f.ncol
                  else (grid f.nrow f.ncol).reverse).flatten
            else (if f.as_table then grid f.nrow f.ncol
                  else (grid f.nrow f.ncol).reverse).transpose.flatten).take np
    ∧ (make_figure_and_axs f np th).1.axs = (make_figure_and_axs f np th).2.bound := by
  refine ⟨by decide, rfl, ?_, rfl, rfl⟩
  simp only [make_figure_and_axs]
  rw [List.take_append_drop]

end GgplotxFacets

namespace GgplotxFacets

/-- C7 counterexample: on a facet with one horizontal faceting variable,
`strip_size("top", 0)` is not zero — the source replaces a falsy
`num_lines` by `self.num_vars_x` before testing for zero, so the claim that
the breadth is zero for `num_lines = 0` under *every* theme and location
fails. -/
theorem C7_zero_lines_counterexample : strip_size facetNv "top" 0 ≠ 0 := by
  have h : ("top" : String) ≠ "right" := by decide
  norm_num [strip_size, inner_strip_margins, facetNv, facetEx, defFTheme, h]

/-- C7 (amended): a zero `num_lines` falls back to the facet-variable count
of the queried location, so `strip_size(location, 0)` equals
`strip_size(location, num_vars)` for the corresponding count, and it is zero
whenever that count is itself zero (in particular on the base facet class,
whose counts are both zero). -/
theorem C7_strip_size_zero_fallback (f : Facet) (location : String) :
    strip_size f location 0
      = strip_size f location
          (if location == "right" then f.num_vars_y else f.num_vars_x)
    ∧ ((if location == "right" then f.num_vars_y else f.num_vars_x) = 0 →
        strip_size f location 0 = 0) := by
  constructor
  · cases hl : location == "right" <;> simp [strip_size, hl, ite_self]
  · intro h0
    cases hl : location == "right" <;> rw [hl] at h0 <;>
      simp [strip_size, hl, h0] at h0 ⊢ <;> simp [h0]

/-- Witness for C7 on the base facet (both facet-variable counts zero). -/
theorem C7_strip_size_zero_witness :
    (if ("top" == "right") then facetEx.num_vars_y else facetEx.num_vars_x) = 0
    ∧ strip_size facetEx "top" 0 = 0 :=
  ⟨rfl, (C7_strip_size_zero_fallback facetEx "top").2 rfl⟩

end GgplotxFacets

namespace GgplotxFacets

/-- C8: for a theme providing a font size, a line spacing and both margins
for the horizontal strip text, the strip breadth at location `"top"` for a
nonzero line count follows exactly
`(linespacing * fontsize * num_lines) / 72.27 + (m1 + m2) / 72.27`
with the fixed points-per-inch constant 72.27 (the rational 7227/100); with
font size 10, line spacing 1, margins (3, 3) and two lines this is
`(10 * 2) / 72.27 + 6 / 72.27`. -/
theorem C8_strip_breadth_formula (f : Facet) (fs ls m1 m2 : ℚ)
    (margin : String → ℚ) (n : Nat) (hn : n ≠ 0)
    (hfs : f.theme.propNum "strip_text_x" "size" = some fs)
    (hls : f.theme.propNum "strip_text_x" "linespacing" = some ls)
    (hm : f.theme.propMargin "strip_text_x" = some margin)
    (hm1 : margin "t" = m1) (hm2 : margin "b" = m2) :
    strip_size f "top" n
      = (ls * fs * n) / (7227 / 100) + (m1 + m2) / (7227 / 100) := by
  have hl : (("top" : String) == "right") = false := by decide
  simp only [strip_size, inner_strip_margins, hl, Bool.false_eq_true, if_false,
    hfs, hls, hm, Option.getD_some, hm1, hm2]
  simp [hn]

/-- Witness for C8: font size 10, line spacing 1, margins (3, 3), two text
lines. -/
theorem C8_strip_breadth_witness :
    (2 : Nat) ≠ 0
    ∧ facetC8.theme.propNum "strip_text_x" "size" = some 10
    ∧ facetC8.theme.propNum "strip_text_x" "linespacing" = some 1
    ∧ facetC8.theme.propMargin "strip_text_x" = some (fun _ => 3)
    ∧ strip_size facetC8 "top" 2
        = (1 * 10 * 2) / (7227 / 100) + (3 + 3) / (7227 / 100) :=
  ⟨by decide, rfl, rfl, rfl,
    C8_strip_breadth_formula facetC8 10 1 3 3 (fun _ => 3) 2 (by decide)
      rfl rfl rfl rfl rfl⟩

/-- C9: when the queried theme properties are absent the facet layout code
falls back to its built-in defaults instead of failing: the tick-label
paddings of `set_breaks_and_labels` become 2.4 points each, and the strip
margins become 3pt/3pt; the lookup miss (`KeyError`) is absorbed at each
call site (the functions are total), never surfaced. -/
theorem C9_lookup_fallbacks (f : Facet) (location : String)
    (hx : f.theme.propMargin "axis_text_x" = none)
    (hy : f.theme.propMargin "axis_text_y" = none)
    (hs : f.theme.propMargin
        (if location == "right" then "strip_text_y" else "strip_text_x")
      = none) :
    set_breaks_and_labels_pads f = (12 / 5, 12 / 5)
    ∧ inner_strip_margins f location = (3, 3) := by
  constructor
  · simp [set_breaks_and_labels_pads, hx, hy]
  · simp only [inner_strip_margins]
    rw [hs]

/-- Witness for C9 on the default theme (every lookup missing). -/
theorem C9_lookup_fallbacks_witness :
    facetEx.theme.propMargin "axis_text_x" = none
    ∧ facetEx.theme.propMargin "axis_text_y" = none
    ∧ facetEx.theme.propMargin
        (if ("top" == "right") then "strip_text_y" else "strip_text_x") = none
    ∧ (set_breaks_and_labels_pads facetEx = (12 / 5, 12 / 5)
        ∧ inner_strip_margins facetEx "top" = (3, 3)) :=
  ⟨rfl, rfl, rfl, C9_lookup_fallbacks facetEx "top" rfl rfl rfl⟩

/-- C10: adding a facet to a plot returns a deep copy of the plot whose
`facet` attribute is the very same facet instance (the reference is stored,
the facet is not copied) with the other attributes unchanged, so two plots
built from the same facet dereference the same facet state, also after any
in-place mutation of it. -/
theorem C10_facet_radd_shares_instance (fRef : Nat) (gg1 gg2 : PlotX)
    (h : Heap Facet) (x : Facet) :
    (facet_radd fRef gg1 false).facet = some fRef
    ∧ (facet_radd fRef gg1 false).rest = gg1.rest
    ∧ (facet_radd fRef gg1 false).facet = (facet_radd fRef gg2 false).facet
    ∧ (facet_radd fRef gg1 false).facet.bind (h.set fRef x).get
        = (facet_radd fRef gg2 false).facet.bind (h.set fRef x).get :=
  ⟨rfl, rfl, rfl, rfl⟩

end GgplotxFacets
